import Mathlib

/-!
Shallow embedding of the report render-and-store service (src/server.js).

Strings are modelled by Lean `String` (a list of characters); where the
source applies a regex replacement or slice we translate it to the
corresponding operation on the character list.  JavaScript falsiness of a
possibly-absent string field is modelled on `Option String` (absent or
empty means falsy).  The MongoDB GridFS bucket and the playwright browser
are external collaborators of the repository; their behaviour is modelled
from the spec where a claim needs it, and each such definition is marked
`Modelled from the spec:` in its doc comment.
-/

def emptyStr : String := ""

/-- JS `String.prototype.trim` (src/server.js line 94 `folder.trim()`):
drop whitespace from both ends. -/
def jsTrim (s : String) : String :=
  String.mk (((s.data.dropWhile Char.isWhitespace).reverse.dropWhile Char.isWhitespace).reverse)

/-- Leading decimal digits of a character list. -/
def leadingDigits (cs : List Char) : List Char := cs.takeWhile Char.isDigit

/-- Value of a digit string, most significant first. -/
def digitsToNat (ds : List Char) : Nat := ds.foldl (fun a c => a * 10 + (c.toNat - 48)) 0

/-- JS `parseInt(s, 10)` (src/server.js line 95): skip leading whitespace,
read an optional sign, then the longest prefix of decimal digits; `NaN`
(here `none`) when there is no digit. -/
def parseIntJS (s : String) : Option Int :=
  let cs := s.data.dropWhile Char.isWhitespace
  match cs with
  | '-' :: rest =>
    if (leadingDigits rest).isEmpty then none
    else some (-(Int.ofNat (digitsToNat (leadingDigits rest))))
  | '+' :: rest =>
    if (leadingDigits rest).isEmpty then none
    else some (Int.ofNat (digitsToNat (leadingDigits rest)))
  | _ =>
    if (leadingDigits cs).isEmpty then none
    else some (Int.ofNat (digitsToNat (leadingDigits cs)))

/-- The fixed mapping of reportType keys to folder numbers
(src/server.js lines 33-49). -/
def reportTypeToFolder : List (String × Nat) :=
  [("liquid_ir", 1), ("draining_dry_ir", 2), ("final_dimension_ir", 3),
   ("hydrostatic_ir", 4), ("penetrating_oil_ir", 5), ("pickling_pass_ir", 6),
   ("raw_material_ir", 7), ("rf_pad_ir", 8), ("stage_ir", 9),
   ("surface_prep_paint_ir", 10), ("vacuum_ir", 11), ("visual_exam_ir", 12),
   ("extra1", 13), ("extra2", 14), ("extra3", 15)]

/-- Property names inherited by every JS object literal from
`Object.prototype`.  Reading any of them on `reportTypeToFolder` yields a
function (or, for `__proto__`, an object), which is truthy.  This is part
of the JavaScript semantics of the lookup `reportTypeToFolder[reportType]`
on src/server.js line 92. -/
def objectProtoMembers : List String :=
  ["constructor", "hasOwnProperty", "isPrototypeOf", "propertyIsEnumerable",
   "toLocaleString", "toString", "valueOf", "__proto__",
   "__defineGetter__", "__defineSetter__", "__lookupGetter__", "__lookupSetter__"]

/-- The value read from `reportTypeToFolder[reportType]`: a folder number
for an own key, or the inherited `Object.prototype` member for its names. -/
inductive FolderValue where
  | num (n : Nat)
  | fnRef
deriving DecidableEq, Repr

/-- JS truthiness of the looked-up value: a number is truthy iff nonzero,
an inherited function or object is truthy. -/
def jsTruthyFolderValue : FolderValue → Bool
  | FolderValue.num n => n != 0
  | FolderValue.fnRef => true

/-- JS property read `reportTypeToFolder[rt]` (src/server.js line 92):
own properties first, then the `Object.prototype` chain, else undefined. -/
def lookupFolder (rt : String) : Option FolderValue :=
  match List.lookup rt reportTypeToFolder with
  | some n => some (FolderValue.num n)
  | none => if objectProtoMembers.contains rt then some FolderValue.fnRef else none

/-- The JSON `folder` field of a submit request: a number, a string, or
absent (src/server.js line 94 inspects `typeof folder`). -/
inductive JsFolder where
  | num (n : Int)
  | str (s : String)
  | absent
deriving DecidableEq, Repr

/-- The `else if` branch of the folder resolution (src/server.js lines
94-97): accept a number, or a string that is nonempty after trimming;
`parseInt(folder, 10)` must give a non-NaN value in [1,15]. -/
def folderFromRaw : JsFolder → Option Nat
  | JsFolder.num n => if 1 ≤ n ∧ n ≤ 15 then some n.toNat else none
  | JsFolder.str s =>
    if jsTrim s ≠ emptyStr then
      match parseIntJS s with
      | some f => if 1 ≤ f ∧ f ≤ 15 then some f.toNat else none
      | none => none
    else none
  | JsFolder.absent => none

/-- Folder resolution of the submit handler (src/server.js lines 91-101):
`if (reportType && reportTypeToFolder[reportType]) folderNumber = ...`
`else if (typeof folder === "number" || nonempty string) parseInt ...`;
`none` means the handler answers 400. -/
def classify (reportType : Option String) (folder : JsFolder) : Option FolderValue :=
  let fromType : Option FolderValue :=
    match reportType with
    | some rt =>
      if rt ≠ emptyStr then
        match lookupFolder rt with
        | some v => if jsTruthyFolderValue v then some v else none
        | none => none
      else none
    | none => none
  match fromType with
  | some v => some v
  | none => (folderFromRaw folder).map FolderValue.num

/-- JS `a || b` on a possibly absent string: absent or empty falls through
(src/server.js line 108). -/
def jsOrStr : Option String → String → String
  | some s, d => if s = emptyStr then d else s
  | none, d => d

def defaultTitle : String := "Report"

/-- `reportTitle || reportType || "Report"` (src/server.js line 108). -/
def pickTitle (reportTitle reportType : Option String) : String :=
  jsOrStr reportTitle (jsOrStr reportType defaultTitle)

/-- `.replace(/</g, "")` (src/server.js line 108): the pattern is the
single character '<' and the replacement is empty, so every '<' is
dropped. -/
def stripLt (s : String) : String := String.mk (s.data.filter (fun c => c != '<'))

/-- `.slice(0, 150)` (src/server.js line 108): keep the first 150
characters. -/
def jsSlice150 (s : String) : String := String.mk (s.data.take 150)

/-- `resolvedTitle` (src/server.js line 108). -/
def resolvedTitle (reportTitle reportType : Option String) : String :=
  jsSlice150 (stripLt (pickTitle reportTitle reportType))

/-- Does the needle start the haystack?  (characterwise prefix test). -/
def beginsWith : List Char → List Char → Bool
  | _, [] => true
  | [], _ :: _ => false
  | c :: t, d :: m => c == d && beginsWith t m

/-- JS `String.prototype.includes` (src/server.js line 110
`html.includes("<html")`): substring occurrence test. -/
def containsSub : List Char → List Char → Bool
  | [], needle => needle.isEmpty
  | c :: t, needle => beginsWith (c :: t) needle || containsSub t needle

def htmlMarker : String := "<html"

/-- The pass-through test of the normalizer (src/server.js line 110). -/
def hasHtmlRoot (html : String) : Bool := containsSub html.data htmlMarker.data

/- The document shell template (src/server.js lines 110-136), split at its
two interpolation points `${resolvedTitle}` and `${html}`.  Braces and
single quotes of the CSS text are written with \x7b \x7d \x27 escapes. -/

def docPreHead : String :=
  "\n      <!DOCTYPE html>\n      <html>\n        <head>\n          <meta charset=\"UTF-8\">\n          "

def titleOpen : String := "<title>"

def titleClose : String := "</title>"

def docStyleOpen : String := "\n          <style>"

/-- The fixed print-oriented stylesheet of the shell
(src/server.js lines 117-131). -/
def printStylesheet : String :=
  "\n            html, body \x7b\n              margin: 0;\n              padding: 0;\n              font-family: \x27Segoe UI\x27, Arial, sans-serif;\n              font-size: 12pt;\n              color: #000;\n            \x7d\n            input, textarea, select \x7b\n              font-family: \x27Segoe UI\x27, Arial, sans-serif;\n              font-size: 12pt;\n              color: #000;\n              border: none;\n            \x7d\n            table \x7b border-collapse: collapse; width: 100%; \x7d\n            td, th \x7b border: 1px solid #000; padding: 8px; word-wrap: break-word; white-space: pre-wrap; \x7d\n          "

def docStyleClose : String := "</style>\n        </head>\n        "

def bodyOpen : String := "<body>"

def bodyClose : String := "</body>"

def docTailRest : String := "\n      </html>\n    "

/-- The UTF-8 charset declaration of the shell (src/server.js line 114);
it occurs inside `docPreHead`. -/
def charsetDecl : String := "<meta charset=\"UTF-8\">"

/-- The wrapped document: template chunks around the title and the body
(src/server.js lines 110-136, else branch of the ternary). -/
def wrapDoc (html title : String) : String :=
  docPreHead ++ (titleOpen ++ (title ++ (titleClose ++ (docStyleOpen ++
    (printStylesheet ++ (docStyleClose ++ (bodyOpen ++ (html ++ (bodyClose ++ docTailRest)))))))))

/-- `fullHtml` (src/server.js line 110): pass an input containing the
marker through unchanged, otherwise wrap it. -/
def fullHtml (html title : String) : String :=
  if hasHtmlRoot html then html else wrapDoc html title

/-- One stored artifact of the bucket.  Modelled from the spec: the GridFS
bucket (an external collaborator of src/server.js) keeps, per object, an
id generated at write time, the filename, the `\x7bfolder\x7d` metadata
written by the submit handler (src/server.js lines 154-156), the upload
date set by the store, and the binary content. -/
structure StoredFile where
  fid : Nat
  filename : String
  folderMeta : FolderValue
  uploadDate : Nat
  content : List Nat
deriving DecidableEq, Repr

/-- Modelled from the spec: the chunked blob store, with its generated-id
counter.  Ids are store-generated and never reused (section 5 of the
spec). -/
structure BlobStore where
  files : List StoredFile
  nextId : Nat
deriving DecidableEq, Repr

def emptyStore : BlobStore := BlobStore.mk [] 0

/-- Modelled from the spec: `write(filename, folder, content) -> id`
(spec 4.4); once the id is returned the artifact is visible to list and
read. -/
def writeStore (st : BlobStore) (filename : String) (folderMeta : FolderValue)
    (content : List Nat) (now : Nat) : BlobStore × Nat :=
  (BlobStore.mk (StoredFile.mk st.nextId filename folderMeta now content :: st.files)
    (st.nextId + 1), st.nextId)

/-- Modelled from the spec: `read(id) -> byte stream`, failing (`none`)
when the id is absent (spec 4.4; src/server.js lines 198-209 pipes the
stream through). -/
def readStore (st : BlobStore) (fid : Nat) : Option (List Nat) :=
  match st.files.find? (fun f => f.fid == fid) with
  | some f => some f.content
  | none => none

/-- Modelled from the spec: `delete(id)`, removing the artifact and all
its chunks, failing (`none`) when the id is absent (spec 4.4;
src/server.js line 214 `bucket.delete` rejects for a missing id). -/
def deleteStore (st : BlobStore) (fid : Nat) : Option BlobStore :=
  if st.files.any (fun f => f.fid == fid) then
    some (BlobStore.mk (st.files.filter (fun f => f.fid != fid)) st.nextId)
  else none

/-- One row of the listing answer (src/server.js lines 184-189). -/
structure ReportMeta where
  fileId : Nat
  filename : String
  folderOut : Option FolderValue
  uploadDate : Nat
deriving DecidableEq, Repr

/-- `parseInt(req.query.folder)` with an optional query parameter
(src/server.js line 176): absent gives NaN, so no filter. -/
def parseFolderQuery : Option String → Option Int
  | some q => parseIntJS q
  | none => none

/-- Does a stored `metadata.folder` match the numeric filter of the query
(src/server.js line 177)? -/
def folderMatches : FolderValue → Int → Bool
  | FolderValue.num m, f => Int.ofNat m == f
  | FolderValue.fnRef, _ => false

/-- The find filter of the listing (src/server.js line 177): restrict to
the folder when the query parsed to a number, else everything. -/
def folderQueryFilter (parsed : Option Int) (files : List StoredFile) : List StoredFile :=
  match parsed with
  | some f => files.filter (fun fl => folderMatches fl.folderMeta f)
  | none => files

/-- Insert keeping later upload dates first. -/
def insertByDate (f : StoredFile) : List StoredFile → List StoredFile
  | [] => [f]
  | g :: t => if g.uploadDate ≤ f.uploadDate then f :: g :: t else g :: insertByDate f t

/-- Modelled from the spec: `.sort(\x7b uploadDate: -1 \x7d)` of
src/server.js line 181 — most recent first. -/
def sortByDateDesc (l : List StoredFile) : List StoredFile := l.foldr insertByDate []

/-- The projection of a stored file to a listing row (src/server.js lines
184-189); `metadata?.folder || null` maps a falsy folder to null. -/
def metaFolderOut (v : FolderValue) : Option FolderValue :=
  if jsTruthyFolderValue v then some v else none

def toMeta (fl : StoredFile) : ReportMeta :=
  ReportMeta.mk fl.fid fl.filename (metaFolderOut fl.folderMeta) fl.uploadDate

/-- The GET /all-reports handler (src/server.js lines 174-196). -/
def listReports (st : BlobStore) (folderQuery : Option String) : List ReportMeta :=
  (sortByDateDesc (folderQueryFilter (parseFolderQuery folderQuery) st.files)).map toMeta

/-- The body of a POST /submit-report request (src/server.js line 86). -/
structure SubmitRequest where
  html : Option String
  reportType : Option String
  folder : JsFolder
  reportTitle : Option String
deriving DecidableEq, Repr

/-- JS falsiness of an optional string field (`!html` on src/server.js
line 88). -/
def jsFalsyOptStr : Option String → Bool
  | none => true
  | some s => s == emptyStr

/-- Word characters kept by `replace(/[^\w\-_.]/g, "")`
(src/server.js line 151): ASCII letters, digits, underscore, hyphen,
dot. -/
def isNameKept (c : Char) : Bool := c.isAlphanum || c == '_' || c == '-' || c == '.'

def sanitizeName (cs : List Char) : List Char := cs.filter isNameKept

/-- `replace(/\s+/g, "_")` (src/server.js line 151): each maximal
whitespace run becomes one underscore. -/
def collapseWsAux : Bool → List Char → List Char
  | _, [] => []
  | inWs, c :: t =>
    if c.isWhitespace then
      if inWs then collapseWsAux true t
      else '_' :: collapseWsAux true t
    else c :: collapseWsAux false t

def collapseWs (cs : List Char) : List Char := collapseWsAux false cs

/-- `safeNameBase` (src/server.js line 151): prefer the reportType key,
else the sanitized title with whitespace collapsed; then strip the
characters outside word/hyphen/dot. -/
def safeNameBase (reportType : Option String) (title : String) : String :=
  match reportType with
  | some rt =>
    if rt ≠ emptyStr then String.mk (sanitizeName rt.data)
    else String.mk (sanitizeName (collapseWs title.data))
  | none => String.mk (sanitizeName (collapseWs title.data))

def hyphen : String := "-"

def pdfExt : String := ".pdf"

/-- The derived filename (src/server.js line 152). -/
def mkFilename (reportType : Option String) (title : String) (now : Nat) : String :=
  safeNameBase reportType title ++ hyphen ++ toString now ++ pdfExt

/-- Where the effectful part of a submission stops.  The playwright
engine and the GridFS stream are external collaborators; per spec 4.3 the
failure modes are context-acquisition failure, load failure and capture
failure, and per spec 4.4 a failed stream write leaves no listable
artifact.  `ok pdf` carries the captured PDF bytes. -/
inductive RunOutcome where
  | launchFail
  | loadFail
  | captureFail
  | uploadFail
  | ok (pdf : List Nat)
deriving DecidableEq, Repr

def mediaScreen : String := "screen"

def mediaPrint : String := "print"

/-- Observable result of one POST /submit-report request: HTTP status,
answered fileId, resulting store, and the effect trace of the rendering
engine — whether a browser was launched (src/server.js line 104), whether
it was closed (line 148), which media type was emulated (line 139), and
which document was loaded into the page (line 138). -/
structure RunResult where
  status : Nat
  fileId : Option Nat
  store : BlobStore
  browserLaunched : Bool
  browserClosed : Bool
  mediaEmulated : Option String
  docLoaded : Option String
deriving DecidableEq, Repr

/-- The POST /submit-report handler (src/server.js lines 81-171),
straight-line translation.  Note the order of effects in the source:
launch (104), setContent (138), emulateMedia screen (139), pdf (142),
close (148), upload (154-165); the catch block (167-170) answers 500 and
does not close the browser. -/
def handleSubmit (rq : SubmitRequest) (outcome : RunOutcome) (st : BlobStore)
    (now : Nat) : RunResult :=
  if jsFalsyOptStr rq.html then
    RunResult.mk 400 none st false false none none
  else
    match classify rq.reportType rq.folder with
    | none => RunResult.mk 400 none st false false none none
    | some folderNumber =>
      match outcome with
      | RunOutcome.launchFail => RunResult.mk 500 none st false false none none
      | RunOutcome.loadFail => RunResult.mk 500 none st true false none none
      | RunOutcome.captureFail =>
        RunResult.mk 500 none st true false (some mediaScreen)
          (some (fullHtml (Option.getD rq.html emptyStr) (resolvedTitle rq.reportTitle rq.reportType)))
      | RunOutcome.uploadFail =>
        RunResult.mk 500 none st true true (some mediaScreen)
          (some (fullHtml (Option.getD rq.html emptyStr) (resolvedTitle rq.reportTitle rq.reportType)))
      | RunOutcome.ok pdf =>
        RunResult.mk 200
          (some (writeStore st (mkFilename rq.reportType (resolvedTitle rq.reportTitle rq.reportType) now) folderNumber pdf now).2)
          (writeStore st (mkFilename rq.reportType (resolvedTitle rq.reportTitle rq.reportType) now) folderNumber pdf now).1
          true true (some mediaScreen)
          (some (fullHtml (Option.getD rq.html emptyStr) (resolvedTitle rq.reportTitle rq.reportType)))

/-- The DELETE /delete-report handler (src/server.js lines 211-221):
a failed `bucket.delete` is caught and answered with 500, success with
200. -/
def handleDeleteReport (st : BlobStore) (fid : Nat) : Nat × BlobStore :=
  match deleteStore st fid with
  | some st2 => (200, st2)
  | none => (500, st)

def pXhtml : String := "<p>x</p>"

def keyLiquid : String := "liquid_ir"

def protoConstructor : String := "constructor"

def folderOneStr : String := "1"

/-- The round-trip request of spec section 8. -/
def rqLiquid : SubmitRequest := SubmitRequest.mk (some pXhtml) (some keyLiquid) JsFolder.absent none

/-- A request whose reportType is no taxonomy key but an inherited
`Object.prototype` member name. -/
def rqConstructor : SubmitRequest :=
  SubmitRequest.mk (some pXhtml) (some protoConstructor) JsFolder.absent none

/-- A request with neither reportType nor folder. -/
def rqNoType : SubmitRequest := SubmitRequest.mk (some pXhtml) none JsFolder.absent none

/-- The PDF signature bytes, a concrete nonempty content. -/
def pdfSig : List Nat := [37, 80, 68, 70]

/-- The stored file a `rqLiquid` submission appends. -/
def liquidFile (st : BlobStore) (pdf : List Nat) (now : Nat) : StoredFile :=
  StoredFile.mk st.nextId (mkFilename (some keyLiquid) (resolvedTitle none (some keyLiquid)) now)
    (FolderValue.num 1) now pdf

/-- A title containing a closing angle bracket. -/
def gtTitle : String := "a>b"

/-- An input that already contains the document root marker. -/
def docRootEx : String := "<html></html>"

/-- A sample title. -/
def tEx : String := "T"

/-- A one-file store for concrete delete runs. -/
def st0 : BlobStore := BlobStore.mk [StoredFile.mk 0 emptyStr (FolderValue.num 1) 0 [1]] 1

/-! ### Helper lemmas -/

theorem strData_append (a b : String) : (a ++ b).data = a.data ++ b.data := rfl

theorem beginsWith_self_append (n r : List Char) : beginsWith (n ++ r) n = true := by
  induction n with
  | nil => cases r <;> rfl
  | cons c t ih => simp [beginsWith, ih]

theorem beginsWith_mono (l b n : List Char) (h : beginsWith l n = true) :
    beginsWith (l ++ b) n = true := by
  induction n generalizing l with
  | nil => cases l ++ b <;> rfl
  | cons d m ih =>
    cases l with
    | nil => simp [beginsWith] at h
    | cons c t =>
      simp only [beginsWith, Bool.and_eq_true] at h
      simp [beginsWith, h.1, ih t h.2]

theorem containsSub_nil_needle (hay : List Char) : containsSub hay [] = true := by
  cases hay <;> rfl

theorem containsSub_cons (c : Char) (t n : List Char) (h : containsSub t n = true) :
    containsSub (c :: t) n = true := by
  simp [containsSub, h]

theorem containsSub_here (n r : List Char) : containsSub (n ++ r) n = true := by
  cases n with
  | nil => exact containsSub_nil_needle r
  | cons c t =>
    simp only [List.cons_append, containsSub]
    have := beginsWith_self_append (c :: t) r
    simp only [List.cons_append] at this
    simp [this]

theorem containsSub_append_right (a b n : List Char) (h : containsSub b n = true) :
    containsSub (a ++ b) n = true := by
  induction a with
  | nil => simpa using h
  | cons c t ih => exact containsSub_cons c (t ++ b) n ih

theorem containsSub_mid (a n b : List Char) : containsSub (a ++ (n ++ b)) n = true :=
  containsSub_append_right a (n ++ b) n (containsSub_here n b)

theorem containsSub_append_left (a b n : List Char) (h : containsSub a n = true) :
    containsSub (a ++ b) n = true := by
  induction a with
  | nil =>
    simp only [containsSub, List.isEmpty_iff] at h
    subst h
    exact containsSub_nil_needle b
  | cons c t ih =>
    simp only [containsSub, Bool.or_eq_true] at h
    rcases h with h | h
    · simp only [List.cons_append, containsSub]
      have hb := beginsWith_mono (c :: t) b n h
      simp only [List.cons_append] at hb
      simp [hb]
    · exact containsSub_cons c (t ++ b) n (ih h)

theorem mem_insertByDate (a f : StoredFile) (l : List StoredFile) :
    a ∈ insertByDate f l ↔ a = f ∨ a ∈ l := by
  induction l with
  | nil => simp [insertByDate]
  | cons g t ih =>
    simp only [insertByDate]
    split
    · simp
    · simp only [List.mem_cons, ih]
      tauto

theorem mem_sortByDateDesc (a : StoredFile) (l : List StoredFile) :
    a ∈ sortByDateDesc l ↔ a ∈ l := by
  induction l with
  | nil => simp [sortByDateDesc]
  | cons g t ih =>
    simp only [sortByDateDesc, List.foldr_cons] at ih ⊢
    rw [mem_insertByDate, ih, List.mem_cons]

/-! ### Claim theorems -/

/-- Claim C3, counterexample: the claim says both angle brackets are
removed from the computed safeTitle, but for the provided title "a>b" the
code (src/server.js line 108, `replace(/</g, "")`) keeps the '>'
character unchanged. -/
theorem c3_counterexample :
    resolvedTitle (some gtTitle) none = gtTitle ∧
    '>' ∈ (resolvedTitle (some gtTitle) none).data := by decide

/-- Claim C3 (amended): for every input title, the computed safeTitle has
all '<' characters removed (while '>' is kept) and its length is at most
150 characters. -/
theorem c3_amended_title (reportTitle reportType : Option String) :
    '<' ∉ (resolvedTitle reportTitle reportType).data ∧
    (resolvedTitle reportTitle reportType).length ≤ 150 := by
  constructor
  · intro h
    have h2 : '<' ∈ (stripLt (pickTitle reportTitle reportType)).data :=
      List.take_subset 150 _ h
    simp only [stripLt, List.mem_filter] at h2
    simp at h2
  · have hl : (resolvedTitle reportTitle reportType).length
        = ((stripLt (pickTitle reportTitle reportType)).data.take 150).length := rfl
    rw [hl, List.length_take]
    exact min_le_left _ _

/-- Claim C4: for every reportType that is a key of the taxonomy mapping,
classification returns exactly the mapped folder number, whatever raw
folder value is supplied alongside. -/
theorem c4_taxonomy_precedence (k : String) (n : Nat)
    (hk : (k, n) ∈ reportTypeToFolder) (f : JsFolder) :
    classify (some k) f = some (FolderValue.num n) := by
  fin_cases hk <;> rfl

/-- Claim C4, witness at the key liquid_ir with a conflicting raw
folder. -/
theorem c4_taxonomy_precedence_witness :
    classify (some keyLiquid) (JsFolder.num 99) = some (FolderValue.num 1) :=
  c4_taxonomy_precedence keyLiquid 1 (by decide) (JsFolder.num 99)

/-- Claim C5, evaluation at the failing input: reportType "constructor"
is not a taxonomy key and no folder is supplied, yet classification does
not fail — the JS lookup `reportTypeToFolder["constructor"]` finds the
inherited, truthy `Object.prototype.constructor`, so the handler skips
the 400 answer and proceeds to rendering (browser launched) instead of
failing with a ValidationError. -/
theorem c5_prototype_bug_eval :
    classify (some protoConstructor) JsFolder.absent = some FolderValue.fnRef ∧
    (handleSubmit rqConstructor RunOutcome.loadFail emptyStore 0).status = 500 ∧
    (handleSubmit rqConstructor RunOutcome.loadFail emptyStore 0).browserLaunched = true := by
  decide

/-- Claim C10, counterexample: the claim covers every absent or unknown
reportType, but for the unknown reportType "constructor" — not a
taxonomy key, yet an inherited `Object.prototype` member name — the
truthy lookup on src/server.js line 92 short-circuits the else-if, so
the folder string "7.9" is ignored and classification does not accept
folder 7. -/
theorem c10_counterexample :
    List.lookup protoConstructor reportTypeToFolder = none ∧
    classify (some protoConstructor) (JsFolder.str ("7.9")) = some FolderValue.fnRef ∧
    classify (some protoConstructor) (JsFolder.str ("7.9")) ≠ some (FolderValue.num 7) := by
  decide

/-- When the property read `reportTypeToFolder[reportType]` finds
nothing (neither an own key nor an inherited member), folder resolution
falls through to the raw-folder branch of src/server.js lines 94-97. -/
theorem classify_some_unknown (k : String) (hk : lookupFolder k = none) (fld : JsFolder) :
    classify (some k) fld = (folderFromRaw fld).map FolderValue.num := by
  simp only [classify, hk, ite_self]

/-- Claim C10 (amended): when reportType is absent, or is a string for
which the lookup finds nothing (neither a taxonomy key nor an inherited
`Object.prototype` member name), classification accepts any folder
string whose leading numeric prefix parses via decimal integer
truncation to a value in [1,15]; in particular "7.9" and "7abc" both
classify to folder 7 under an absent or unknown reportType. -/
theorem c10_lenient_parse_fixed :
    (∀ (reportType : Option String) (s : String) (i : Int),
      (reportType = none ∨ ∃ k, reportType = some k ∧ lookupFolder k = none) →
      parseIntJS s = some i → 1 ≤ i → i ≤ 15 → jsTrim s ≠ emptyStr →
      classify reportType (JsFolder.str s) = some (FolderValue.num i.toNat)) ∧
    classify none (JsFolder.str ("7.9")) = some (FolderValue.num 7) ∧
    classify (some ("bogus_type")) (JsFolder.str ("7.9")) = some (FolderValue.num 7) ∧
    classify none (JsFolder.str ("7abc")) = some (FolderValue.num 7) ∧
    classify (some ("bogus_type")) (JsFolder.str ("7abc")) = some (FolderValue.num 7) := by
  refine ⟨?_, by decide, by decide, by decide, by decide⟩
  intro rt s i hrt hp h1 h15 hs
  have hbase : classify rt (JsFolder.str s)
      = (folderFromRaw (JsFolder.str s)).map FolderValue.num := by
    rcases hrt with rfl | ⟨k, rfl, hk⟩
    · rfl
    · exact classify_some_unknown k hk (JsFolder.str s)
  rw [hbase]
  simp only [folderFromRaw]
  rw [if_pos hs, hp]
  simp [h1, h15]

/-- Claim C10, witness: the in-range string "12" is accepted under the
unknown reportType "bogus_type" through the general statement. -/
theorem c10_lenient_parse_fixed_witness :
    classify (some ("bogus_type")) (JsFolder.str ("12")) = some (FolderValue.num (Int.toNat 12)) :=
  c10_lenient_parse_fixed.1 (some ("bogus_type")) ("12") 12
    (Or.inr ⟨("bogus_type"), rfl, by decide⟩) (by decide) (by decide) (by decide) (by decide)

/-- Claim C1, counterexample: a successful submission that captured a PDF
ran with emulated media "screen", not "print" — src/server.js line 139 is
`page.emulateMedia(\x7b media: 'screen' \x7d)`. -/
theorem c1_counterexample :
    (handleSubmit rqLiquid (RunOutcome.ok pdfSig) emptyStore 0).fileId.isSome = true ∧
    (handleSubmit rqLiquid (RunOutcome.ok pdfSig) emptyStore 0).mediaEmulated = some mediaScreen ∧
    mediaScreen ≠ mediaPrint := by decide

/-- Claim C1 (amended): before capturing the PDF the rendering engine
switches the emulated media type to "screen" (not "print"); every
submission that returns a fileId emulated media "screen", and "screen" is
the only media type the handler ever emulates. -/
theorem c1_amended_media (rq : SubmitRequest) (outcome : RunOutcome) (st : BlobStore) (now : Nat) :
    ((handleSubmit rq outcome st now).fileId.isSome = true →
      (handleSubmit rq outcome st now).mediaEmulated = some mediaScreen) ∧
    (∀ m, (handleSubmit rq outcome st now).mediaEmulated = some m → m = mediaScreen) := by
  unfold handleSubmit
  constructor
  · split
    · simp
    · split
      · simp
      · cases outcome <;> simp
  · split
    · simp
    · split
      · simp
      · cases outcome <;> simp

/-- Claim C1, witness of the amended statement at a concrete successful
submission. -/
theorem c1_amended_media_witness :
    (handleSubmit rqLiquid (RunOutcome.ok pdfSig) emptyStore 0).mediaEmulated = some mediaScreen :=
  (c1_amended_media rqLiquid (RunOutcome.ok pdfSig) emptyStore 0).1 (by decide)

/-- Claim C2, counterexample: when PDF capture fails the browser was
launched but never closed — the catch block of src/server.js lines
167-170 answers 500 without calling `browser.close()`, which only runs on
the success path (line 148). -/
theorem c2_counterexample :
    (handleSubmit rqLiquid RunOutcome.captureFail emptyStore 0).browserLaunched = true ∧
    (handleSubmit rqLiquid RunOutcome.captureFail emptyStore 0).browserClosed = false := by decide

/-- Claim C2 (amended): the rendering context is released exactly on the
runs where capture succeeded (the upload may still fail afterwards); on a
load or capture failure after acquisition the context is not released. -/
theorem c2_amended_teardown (rq : SubmitRequest) (outcome : RunOutcome) (st : BlobStore) (now : Nat) :
    (handleSubmit rq outcome st now).browserClosed = true ↔
      ((handleSubmit rq outcome st now).browserLaunched = true ∧
        ((∃ pdf, outcome = RunOutcome.ok pdf) ∨ outcome = RunOutcome.uploadFail)) := by
  unfold handleSubmit
  split
  · simp
  · split
    · simp
    · cases outcome <;> simp

/-- Claim C8: a classification failure answers 400 without acquiring a
rendering context and leaves the store unchanged; a launch, load or
capture failure leaves the store unchanged, returns no fileId, and
surfaces as a single terminal error status. -/
theorem c8_failure_isolation (rq : SubmitRequest) (outcome : RunOutcome) (st : BlobStore) (now : Nat) :
    (classify rq.reportType rq.folder = none →
      (handleSubmit rq outcome st now).browserLaunched = false ∧
      (handleSubmit rq outcome st now).store = st ∧
      (handleSubmit rq outcome st now).status = 400) ∧
    ((outcome = RunOutcome.launchFail ∨ outcome = RunOutcome.loadFail ∨ outcome = RunOutcome.captureFail) →
      (handleSubmit rq outcome st now).store = st ∧
      (handleSubmit rq outcome st now).fileId = none ∧
      ((handleSubmit rq outcome st now).status = 400 ∨ (handleSubmit rq outcome st now).status = 500)) := by
  constructor
  · intro hc
    unfold handleSubmit
    split
    · exact ⟨rfl, rfl, rfl⟩
    · split
      · exact ⟨rfl, rfl, rfl⟩
      · rename_i v heq
        rw [hc] at heq
        cases heq
  · intro ho
    unfold handleSubmit
    split
    · simp
    · split
      · simp
      · rcases ho with h | h | h <;> subst h <;> simp

/-- Claim C8, witness: a request with no classification answers 400
without launching, and a capture failure on a classified request leaves
the store unchanged with a 500. -/
theorem c8_failure_isolation_witness :
    ((handleSubmit rqNoType RunOutcome.launchFail emptyStore 0).browserLaunched = false ∧
      (handleSubmit rqNoType RunOutcome.launchFail emptyStore 0).store = emptyStore ∧
      (handleSubmit rqNoType RunOutcome.launchFail emptyStore 0).status = 400) ∧
    ((handleSubmit rqLiquid RunOutcome.captureFail emptyStore 0).store = emptyStore ∧
      (handleSubmit rqLiquid RunOutcome.captureFail emptyStore 0).fileId = none ∧
      ((handleSubmit rqLiquid RunOutcome.captureFail emptyStore 0).status = 400 ∨
        (handleSubmit rqLiquid RunOutcome.captureFail emptyStore 0).status = 500)) :=
  ⟨(c8_failure_isolation rqNoType RunOutcome.launchFail emptyStore 0).1 (by decide),
   (c8_failure_isolation rqLiquid RunOutcome.captureFail emptyStore 0).2 (Or.inr (Or.inr rfl))⟩

/-- Claim C6: an input containing the document root marker is passed
through byte-for-byte unchanged; an input lacking it is wrapped in the
document shell, which contains the UTF-8 charset declaration, the default
print stylesheet, the title between the title tags, and the original
input as the body. -/
theorem c6_normalizer (html title : String) :
    (hasHtmlRoot html = true → fullHtml html title = html) ∧
    (hasHtmlRoot html = false →
      fullHtml html title = wrapDoc html title ∧
      containsSub (fullHtml html title).data charsetDecl.data = true ∧
      containsSub (fullHtml html title).data printStylesheet.data = true ∧
      containsSub (fullHtml html title).data (titleOpen ++ (title ++ titleClose)).data = true ∧
      containsSub (fullHtml html title).data (bodyOpen ++ (html ++ bodyClose)).data = true) := by
  constructor
  · intro h
    simp [fullHtml, h]
  · intro h
    have hw : fullHtml html title = wrapDoc html title := by simp [fullHtml, h]
    refine ⟨hw, ?_, ?_, ?_, ?_⟩ <;> rw [hw]
    · simp only [wrapDoc, strData_append]
      exact containsSub_append_left docPreHead.data _ charsetDecl.data (by decide)
    · simp only [wrapDoc, strData_append]
      apply containsSub_append_right
      apply containsSub_append_right
      apply containsSub_append_right
      apply containsSub_append_right
      apply containsSub_append_right
      exact containsSub_here printStylesheet.data _
    · simp only [wrapDoc, strData_append]
      apply containsSub_append_right
      have h2 := containsSub_here (titleOpen.data ++ (title.data ++ titleClose.data))
        (docStyleOpen.data ++ (printStylesheet.data ++ (docStyleClose.data ++
          (bodyOpen.data ++ (html.data ++ (bodyClose.data ++ docTailRest.data))))))
      simpa [List.append_assoc] using h2
    · simp only [wrapDoc, strData_append]
      apply containsSub_append_right
      apply containsSub_append_right
      apply containsSub_append_right
      apply containsSub_append_right
      apply containsSub_append_right
      apply containsSub_append_right
      apply containsSub_append_right
      have h2 := containsSub_here (bodyOpen.data ++ (html.data ++ bodyClose.data)) docTailRest.data
      simpa [List.append_assoc] using h2

/-- Claim C6, witness: a document with the root marker passes through
unchanged, and a fragment is wrapped. -/
theorem c6_normalizer_witness :
    fullHtml docRootEx tEx = docRootEx ∧ fullHtml pXhtml tEx = wrapDoc pXhtml tEx :=
  ⟨(c6_normalizer docRootEx tEx).1 (by decide), ((c6_normalizer pXhtml tEx).2 (by decide)).1⟩

/-- Claim C9: deleting a never-issued id fails with the NotFoundError
path (HTTP 500, store unchanged), and after a successful delete a second
delete of the same id fails the same way — delete never succeeds twice. -/
theorem c9_delete_not_found (st : BlobStore) (fid : Nat) :
    ((∀ f ∈ st.files, f.fid ≠ fid) → handleDeleteReport st fid = (500, st)) ∧
    (∀ st2, deleteStore st fid = some st2 → handleDeleteReport st2 fid = (500, st2)) := by
  constructor
  · intro h
    have hany : st.files.any (fun f => f.fid == fid) = false := by
      rw [List.any_eq_false]
      intro f hf
      simp [h f hf]
    simp [handleDeleteReport, deleteStore, hany]
  · intro st2 hdel
    have hst2 : st2 = BlobStore.mk (st.files.filter (fun f => f.fid != fid)) st.nextId := by
      unfold deleteStore at hdel
      split at hdel
      · exact (Option.some.inj hdel).symm
      · cases hdel
    subst hst2
    have hany2 : ((st.files.filter (fun f => f.fid != fid)).any (fun f => f.fid == fid)) = false := by
      rw [List.any_eq_false]
      intro f hf
      have h2 := (List.mem_filter.1 hf).2
      simp only [bne_iff_ne, ne_eq] at h2
      simp [h2]
    simp [handleDeleteReport, deleteStore, hany2]

/-- Claim C9, witness: deleting id 5 from a store holding only id 0
fails, and after deleting id 0 a second delete of id 0 fails. -/
theorem c9_delete_not_found_witness :
    handleDeleteReport st0 5 = (500, st0) ∧
    handleDeleteReport (BlobStore.mk [] 1) 0 = (500, BlobStore.mk [] 1) :=
  ⟨(c9_delete_not_found st0 5).1 (by decide),
   (c9_delete_not_found st0 0).2 (BlobStore.mk [] 1) (by decide)⟩

/-- Claim C7: submitting html with reportType liquid_ir returns an id i,
the listing filtered to folder 1 contains i, reading i yields the
(nonempty) stored byte stream, and after deleting i neither read nor the
unfiltered listing references i. -/
theorem c7_round_trip (st : BlobStore) (pdf : List Nat) (now : Nat) (hpdf : pdf ≠ []) :
    (handleSubmit rqLiquid (RunOutcome.ok pdf) st now).fileId = some st.nextId ∧
    st.nextId ∈ (listReports (handleSubmit rqLiquid (RunOutcome.ok pdf) st now).store
      (some folderOneStr)).map ReportMeta.fileId ∧
    (readStore (handleSubmit rqLiquid (RunOutcome.ok pdf) st now).store st.nextId = some pdf ∧
      pdf ≠ []) ∧
    ∃ st2, deleteStore (handleSubmit rqLiquid (RunOutcome.ok pdf) st now).store st.nextId = some st2 ∧
      readStore st2 st.nextId = none ∧
      st.nextId ∉ (listReports st2 none).map ReportMeta.fileId := by
  have hstore : (handleSubmit rqLiquid (RunOutcome.ok pdf) st now).store
      = BlobStore.mk (liquidFile st pdf now :: st.files) (st.nextId + 1) := rfl
  refine ⟨rfl, ?_, ⟨?_, hpdf⟩, ?_⟩
  · rw [hstore]
    have hmem : liquidFile st pdf now ∈
        folderQueryFilter (parseFolderQuery (some folderOneStr)) (liquidFile st pdf now :: st.files) := by
      have hparse : parseFolderQuery (some folderOneStr) = some 1 := rfl
      rw [hparse]
      simp only [folderQueryFilter]
      refine List.mem_filter.2 ⟨List.mem_cons_self _ _, ?_⟩
      rfl
    have hsort : liquidFile st pdf now ∈
        sortByDateDesc (folderQueryFilter (parseFolderQuery (some folderOneStr))
          (liquidFile st pdf now :: st.files)) :=
      (mem_sortByDateDesc _ _).2 hmem
    exact List.mem_map_of_mem ReportMeta.fileId (List.mem_map_of_mem toMeta hsort)
  · rw [hstore]
    simp only [readStore]
    rw [List.find?_cons_of_pos]
    · rfl
    · simp [liquidFile]
  · rw [hstore]
    have hany : ((liquidFile st pdf now :: st.files).any (fun f => f.fid == st.nextId)) = true := by
      simp [List.any_cons, liquidFile]
    refine ⟨BlobStore.mk ((liquidFile st pdf now :: st.files).filter
      (fun f => f.fid != st.nextId)) (st.nextId + 1), ?_, ?_, ?_⟩
    · simp only [deleteStore]
      rw [if_pos hany]
    · have hnone : ((liquidFile st pdf now :: st.files).filter
          (fun f => f.fid != st.nextId)).find? (fun f => f.fid == st.nextId) = none := by
        rw [List.find?_eq_none]
        intro f hf
        have h2 := (List.mem_filter.1 hf).2
        simp only [bne_iff_ne, ne_eq] at h2
        simp [h2]
      simp [readStore, hnone]
    · intro hmem2
      rcases List.mem_map.1 hmem2 with ⟨m, hm, hfidm⟩
      simp only [listReports, parseFolderQuery, folderQueryFilter] at hm
      rcases List.mem_map.1 hm with ⟨fl, hfl, hflm⟩
      have hfl2 := (mem_sortByDateDesc _ _).1 hfl
      have h2 := (List.mem_filter.1 hfl2).2
      simp only [bne_iff_ne, ne_eq] at h2
      apply h2
      rw [← hflm] at hfidm
      exact hfidm

/-- Claim C7, witness: the round trip at the empty store with the PDF
signature bytes as content. -/
theorem c7_round_trip_witness :
    (handleSubmit rqLiquid (RunOutcome.ok pdfSig) emptyStore 0).fileId = some emptyStore.nextId ∧
    emptyStore.nextId ∈ (listReports (handleSubmit rqLiquid (RunOutcome.ok pdfSig) emptyStore 0).store
      (some folderOneStr)).map ReportMeta.fileId ∧
    (readStore (handleSubmit rqLiquid (RunOutcome.ok pdfSig) emptyStore 0).store emptyStore.nextId
      = some pdfSig ∧ pdfSig ≠ []) ∧
    ∃ st2, deleteStore (handleSubmit rqLiquid (RunOutcome.ok pdfSig) emptyStore 0).store
        emptyStore.nextId = some st2 ∧
      readStore st2 emptyStore.nextId = none ∧
      emptyStore.nextId ∉ (listReports st2 none).map ReportMeta.fileId :=
  c7_round_trip emptyStore pdfSig 0 (by decide)
